import Mathlib

/-!
Verification development for the TMTL inspection system: a shallow embedding of
the camera subsystem (`camera_manager.py`) and the remote inference client
(`hf_client.py`), with theorems settling the behavioural claims about frame
quality scoring, capture metrics, the continuous-capture ring buffer, camera
auto-discovery, the detection confidence gate, label parsing, and temporary
file lifecycle.

Conventions of the embedding:
* Python floats are modelled as `ℚ` (all constants involved are exact
  decimals).
* Python dictionaries of heterogeneous shape are modelled by inductive types
  whose constructors stand for the shape tests the code performs
  (`isinstance`, key membership, value types).
* Raised exceptions are modelled with `Except`; a bare `Bool`-returning
  environment function stands for success or failure of a hardware or network
  effect.
* Image pixel data is abstracted to its dimensions plus the luma statistics
  the code derives from it (mean, Laplacian variance, standard deviation,
  noise estimate, percentiles); every control-flow decision of the source
  depends on the pixels only through these statistics.
-/

namespace TMTL

/- `Rat.add`, `Rat.sub`, `Rat.mul` and `Rat.inv` are `@[irreducible]` in
Batteries, which blocks `decide`/`rfl` evaluation of the embedding at
concrete inputs; restore their default reducibility for this development. -/
attribute [local semireducible] Rat.add Rat.sub Rat.mul Rat.inv

/-! ### String helpers: Python's `in` (substring) operator -/

/-- Tests whether `needle` is an initial segment of `hay`. -/
def matchesAt : List Char → List Char → Bool
  | [], _ => true
  | _ :: _, [] => false
  | a :: as, b :: bs => a == b && matchesAt as bs

/-- Tests whether `needle` occurs contiguously inside `hay`. -/
def containsSub (needle : List Char) : List Char → Bool
  | [] => needle.isEmpty
  | c :: rest => matchesAt needle (c :: rest) || containsSub needle rest

/-- Python's `needle in hay` for strings. -/
def strContains (hay needle : String) : Bool :=
  containsSub needle.toList hay.toList

/-- Python's `str.lower()` (the failure markers are ASCII). -/
def pyLower (s : String) : String :=
  String.mk (s.toList.map Char.toLower)

/-- Python's `str.split(sep)` for a one-character separator, on character
lists: splits at every occurrence, keeping empty pieces. -/
def splitOnChar (sep : Char) : List Char → List (List Char)
  | [] => [[]]
  | c :: rest =>
      match splitOnChar sep rest with
      | h :: t => if c == sep then [] :: h :: t else (c :: h) :: t
      | [] => [[c]]

/-! ### `hf_client.py` — label-structure parsing (`_parse_label_data`)

A Gradio Label value is a Python object of one of several shapes; the code
branches on those shapes.  `ConfEntry` models one element of a
`"confidences"` array, with `Option` for `dict.get` defaulting. -/

/-- One element of a `"confidences"` list: a dict whose `"label"` and
`"confidence"` keys may each be absent (`.get` with a default). -/
structure ConfEntry where
  label : Option String
  confidence : Option ℚ
deriving DecidableEq

/-- Models `x.get("confidence", 0)` — the sort key and extracted confidence. -/
def entryConf (e : ConfEntry) : ℚ := e.confidence.getD 0

/-- Models `x.get("label", "UNKNOWN")`. -/
def entryLab (e : ConfEntry) : String := e.label.getD "UNKNOWN"

/-- The shapes of `label_data` distinguished by `_parse_label_data`:
not a dict; a dict with a `"confidences"` list; a dict whose
`"confidences"` value is not a list; a dict all of whose values are numeric
(a flat class→score map, as an association list); a dict with a `"label"`
key; any other dict. -/
inductive LabelData where
  | notDict
  | confs (cs : List ConfEntry)
  | confsNotList
  | flat (m : List (String × ℚ))
  | labeled (lab : String) (conf : Option ℚ)
  | other
deriving DecidableEq

/-- Insert into a list sorted by `key` in descending order, before any
element of equal key: this reproduces the result of Python's stable
`sorted(..., reverse=True)`. -/
def insertDescBy (key : α → ℚ) (x : α) : List α → List α
  | [] => [x]
  | y :: ys => if key y ≤ key x then x :: y :: ys else y :: insertDescBy key x ys

/-- Stable descending sort by `key`; agrees with Python's
`sorted(l, key=key, reverse=True)`. -/
def sortDescBy (key : α → ℚ) : List α → List α
  | [] => []
  | x :: xs => insertDescBy key x (sortDescBy key xs)

/-- Embedding of `_parse_label_data` (hf_client.py lines 189–236).
Returns `(best_match, confidence, all_scores)`; `all_scores` is kept as the
ordered list of `(label, score)` pairs produced from the sorted data. -/
def parseLabelData : LabelData → String × ℚ × List (String × ℚ)
  | .notDict => ("UNKNOWN", 0, [])
  | .confs cs =>
      -- `if isinstance(confidences, list) and confidences:` — empty list falls through
      match sortDescBy entryConf cs with
      | [] => ("UNKNOWN", 0, [])
      | top :: rest =>
          (top.label.getD "UNKNOWN", top.confidence.getD 0,
           (top :: rest).map (fun c => (c.label.getD "", c.confidence.getD 0)))
  | .confsNotList => ("UNKNOWN", 0, [])
  | .flat m =>
      -- `elif all(isinstance(v, (int, float)) ...)`; `if label_data:` skips the empty dict
      match sortDescBy (fun p => p.2) m with
      | [] => ("UNKNOWN", 0, [])
      | top :: rest => (top.1, top.2, top :: rest)
  | .labeled lab conf => (lab, conf.getD 0, [])
  | .other => ("UNKNOWN", 0, [])

/-! ### `hf_client.py` — status-text parsing (`_parse_status_text`)

The code extracts a percentage with `re.search(r"([\d.]+)%", line)` and a raw
number with `re.search(r"([\d.]+)", ...)`, then applies Python's `float`.
`float` raises `ValueError` on a run such as `"."` or `"1.2.3"`, which
propagates out of `detect_part`'s parsing phase into its `except` block; the
parse is therefore modelled in `Except`. -/

/-- Character class `[\d.]` of the regexes. -/
def isNumCh (c : Char) : Bool := c.isDigit || c == '.'

/-- Worker for `findPctRun`: `runRev` is the numeric run read so far,
reversed. -/
def findPctRunGo (runRev : List Char) : List Char → Option (List Char)
  | [] => none
  | c :: rest =>
    if isNumCh c then findPctRunGo (c :: runRev) rest
    else if c == '%' && !runRev.isEmpty then some runRev.reverse
    else findPctRunGo [] rest

/-- Models `re.search(r"([\d.]+)%", s)`: the group of the first match, i.e. the
first maximal run of `[\d.]` characters immediately followed by `'%'`
(`'%'` is outside the class, so backtracking never shortens the run). -/
def findPctRun (s : List Char) : Option (List Char) := findPctRunGo [] s

/-- Models `re.search(r"([\d.]+)", s)`: the first maximal run of `[\d.]`
characters. -/
def findNumRun : List Char → Option (List Char)
  | [] => none
  | c :: rest => if isNumCh c then some ((c :: rest).takeWhile isNumCh) else findNumRun rest

/-- Decimal value of a digit string (`[]` contributes `0`, matching
`float(".5") = 0.5` and `float("5.") = 5.0`). -/
def digitsToNat (ds : List Char) : Nat :=
  ds.foldl (fun n c => 10 * n + (c.toNat - '0'.toNat)) 0

/-- Python `float()` applied to a run of digits and dots: defined exactly when
the run has at most one `'.'` and at least one digit. -/
def floatOfRun (run : List Char) : Option ℚ :=
  match splitOnChar '.' run with
  | [ip] => some (digitsToNat ip)
  | [ip, fp] =>
      if ip.isEmpty && fp.isEmpty then none
      else some ((digitsToNat ip : ℚ) + (digitsToNat fp : ℚ) / (10 ^ fp.length))
  | _ => none

/-- One iteration of the per-line loop of `_parse_status_text`
(hf_client.py lines 253–265), tracking the `confidence_pct` field.
The `**Raw Similarity**` branch only sets `raw_similarity`, but its `float`
call can still raise; the `**Status**` branch cannot raise and does not touch
`confidence_pct`. -/
def statusLineStep (cpct : Option ℚ) (line : List Char) : Except String (Option ℚ) :=
  if containsSub "**Confidence**".toList line then
    match findPctRun line with
    | some run =>
        match floatOfRun run with
        | some v => .ok (some (v / 100))
        | none => .error "ValueError"
    | none => .ok cpct
  else if containsSub "**Raw Similarity**".toList line then
    match findNumRun ((splitOnChar ':' line).getLastD []) with
    | some run =>
        match floatOfRun run with
        | some _ => .ok cpct
        | none => .error "ValueError"
    | none => .ok cpct
  else .ok cpct

/-- The `confidence_pct` field of `_parse_status_text` over the whole status
markdown, line by line (`status_text.split("\n")`). -/
def parseStatusCpct (status : String) : Except String (Option ℚ) :=
  (splitOnChar (Char.ofNat 10) status.toList).foldlM statusLineStep none

/-! ### `hf_client.py` — the detection decision of `detect_part` -/

/-- The constant `HuggingFaceClient.CONFIDENCE_THRESHOLD = 0.60` (hf_client.py line 48):
the local softmax-probability gate. -/
def CONFIDENCE_THRESHOLD : ℚ := 60 / 100

/-- The list `failures = ["no bolt holes", "localization failed", "insufficient hole"]`
(hf_client.py line 345). -/
def failureMarkers : List String :=
  ["no bolt holes", "localization failed", "insufficient hole"]

/-- The success dictionary of `detect_part` restricted to the decision
fields. -/
structure DetectOk where
  matched : Bool
  confidence : ℚ
  best_match : String
  all_scores : List (String × ℚ)
deriving DecidableEq

/-- The result-processing stage of `detect_part` (hf_client.py lines
327–352), acting on an already received result array through its status text
(`result[0]`, as a string) and label structure (`result[1]`).  `threshold` is
the caller-supplied argument: `detect_part` sends it to the remote service
inside the job payload and the local logic below never reads it.  `.error` is
an exception raised during parsing, caught by `detect_part`'s `except`
block. -/
def detectProcess (threshold : ℚ) (status_text : String) (label_data : LabelData) :
    Except String DetectOk :=
  let _forwardedInPayload := threshold
  let p := parseLabelData label_data
  -- fallback: parse from status text if label parsing yielded confidence 0.0
  match (if p.2.1 = 0 then parseStatusCpct status_text else .ok none :
         Except String (Option ℚ)) with
  | .error e => .error e
  | .ok fb =>
    let confidence := fb.getD p.2.1
    let status_lower := pyLower status_text
    let is_valid := !(failureMarkers.any (fun f => strContains status_lower f))
    if is_valid = false ∨ confidence < CONFIDENCE_THRESHOLD then
      .ok ⟨false, confidence, "UNKNOWN", p.2.2⟩
    else
      .ok ⟨true, confidence, p.1, p.2.2⟩

/-! ### `hf_client.py` — `detect_part` temp-file lifecycle

`detect_part` (lines 305–396) creates one local temporary file for the input
image, may download up to two visualization assets into further temporary
files, and runs under `try/except/finally`.  The filesystem effect of a call
is modelled as the list of temporary files still existing when the call
returns, as a function of which step (if any) raises. -/

/-- Where the body of `detect_part` first raises, if anywhere.
`atSave` is `image.save(tmp.name, ...)` inside the `with` block (before
`temp_path = tmp.name` runs); `atUpload` is `_upload_file`; `atCallApi` is
`_call_api`; `atShortResult` is the `len(result) < 5` check raising
`ProcessingError`.  `_download_asset` catches its own exceptions and instead
returns `None`, so no later failure point exists. -/
inductive FailPoint where
  | ok
  | atSave
  | atUpload
  | atCallApi
  | atShortResult
deriving DecidableEq

/-- How one `_download_asset` call (hf_client.py lines 158–174) plays out.
`noPath` — the result entry carries no usable remote path, so the function
returns `None` before any network or file activity; `httpError` — the GET or
`raise_for_status` raises before `tempfile.mkstemp` runs, the `except`
returns `None` and no file was created; `writeError` — `mkstemp` created the
file and the write then raised, the `except` returns `None` but the created
file stays on disk; `ok` — the asset is written and its path returned. -/
inductive DownloadOutcome where
  | noPath
  | httpError
  | writeError
  | ok
deriving DecidableEq

/-- Filesystem effect of `_download_asset`: the returned local path (if any)
and the temporary files the call created that exist when it returns.  On
`writeError` the exception is swallowed, `None` is returned, and the
`mkstemp` file is left behind — nothing deletes it. -/
def downloadAsset (o : DownloadOutcome) (name : String) : Option String × List String :=
  match o with
  | .noPath => (none, [])
  | .httpError => (none, [])
  | .writeError => (none, [name])
  | .ok => (some name, [name])

/-- Inputs determining one `detect_part` run: the injected failure point, the
received result array (status text and label structure), and how each
visualization-asset download plays out. -/
structure DetectInput where
  fail : FailPoint
  status_text : String
  label_data : LabelData
  visDl : DownloadOutcome
  attnDl : DownloadOutcome
deriving DecidableEq

/-- What `detect_part` returns: the success dictionary (with the local asset
paths), or the `except`-branch dictionary
`{"success": False, "error": ..., "matched": False, "confidence": 0.0}`
carried here by its `matched` and `confidence` fields. -/
inductive DetectOutcome where
  | success (r : DetectOk) (visualization attention : Option String)
  | failure (matched : Bool) (confidence : ℚ)
deriving DecidableEq

/-- Name of the `NamedTemporaryFile` holding the input image. -/
def tmpInputFile : String := "tmp_input.png"

/-- Name of the downloaded visualization temp file (`hf_result_*.png`). -/
def visFile : String := "hf_result_vis.png"

/-- Name of the downloaded attention-map temp file (`hf_result_*.png`). -/
def attnFile : String := "hf_result_attn.png"

/-- Embedding of `_cleanup_temp_file` (and the `finally` block's `os.remove`): remove the
file if a path is held, suppressing errors. -/
def cleanupTemp (path : Option String) (files : List String) : List String :=
  match path with
  | some p => files.filter (fun f => f ≠ p)
  | none => files

/-- Result of a `detect_part` call: the returned dictionary and the temporary
files created by the call that still exist after it returns. -/
structure FsResult where
  outcome : DetectOutcome
  files : List String
deriving DecidableEq

/-- Embedding of `detect_part` (hf_client.py lines 305–396) as a filesystem-effect
function.  `NamedTemporaryFile(delete=False)` creates the input temp file
first; `temp_path = tmp.name` runs only after `image.save` succeeds.  The
`except` block cleans up the (possibly) downloaded assets and returns the
error dictionary; the `finally` block removes the input file iff `temp_path`
was assigned. -/
def detectPart (threshold : ℚ) (inp : DetectInput) : FsResult :=
  let files := [tmpInputFile]
  match inp.fail with
  | .atSave =>
      -- `image.save` raised inside the `with` block: `temp_path` is still None,
      -- so the `finally` block removes nothing and the input file survives
      { outcome := .failure false 0,
        files := cleanupTemp none (cleanupTemp none files) }
  | .atUpload | .atCallApi | .atShortResult =>
      -- raised after `temp_path = tmp.name`; no asset downloaded yet
      { outcome := .failure false 0,
        files := cleanupTemp (some tmpInputFile) (cleanupTemp none (cleanupTemp none files)) }
  | .ok =>
      match detectProcess threshold inp.status_text inp.label_data with
      | .error _ =>
          -- `float()` raised during result parsing
          { outcome := .failure false 0,
            files := cleanupTemp (some tmpInputFile) (cleanupTemp none (cleanupTemp none files)) }
      | .ok r =>
          -- download errors are swallowed inside `_download_asset`: the call
          -- keeps going and still returns the success dictionary
          let local_vis := downloadAsset inp.visDl visFile
          let local_attn := downloadAsset inp.attnDl attnFile
          -- the success dictionary hands the asset paths to the caller;
          -- the `finally` block removes only the input file
          { outcome := .success r local_vis.1 local_attn.1,
            files := cleanupTemp (some tmpInputFile)
              (files ++ local_vis.2 ++ local_attn.2) }

/-! ### `camera_manager.py` — frame quality -/

/-- The `FrameQuality` dataclass (camera_manager.py lines 35–45). -/
structure FrameQuality where
  brightness : ℚ
  sharpness : ℚ
  contrast : ℚ
  noise_level : ℚ
  is_blurred : Bool
  is_overexposed : Bool
  is_underexposed : Bool
  quality_score : ℚ
deriving DecidableEq

/-- Embedding of `Camera._calculate_quality_score` (camera_manager.py lines 300–330):
start at 100, subtract each penalty of the four `if/elif` pairs, clamp to
`[0, 100]`.  Each sequential `score -= x` is written as a subtraction of the
corresponding conditional amount. -/
def calculateQualityScore (brightness sharpness contrast noise_level : ℚ)
    (is_blurred is_overexposed is_underexposed : Bool) : ℚ :=
  max 0 (min 100
    ((((100 : ℚ)
        - (if is_blurred then 30 else if sharpness < 200 then 15 else 0))
        - (if is_overexposed || is_underexposed then 25
           else if brightness < 80 ∨ brightness > 180 then 10 else 0)
        - (if contrast < 30 then 20 else if contrast < 50 then 10 else 0)
        - (if noise_level > 10 then 20 else if noise_level > 5 then 10 else 0))))

/-- Embedding of `Camera._assess_frame_quality` (camera_manager.py lines 244–287).  The
luma statistics the code computes from the pixel array — mean (`brightness`),
Laplacian variance (`sharpness`), standard deviation (`contrast`), the robust
noise estimate, and the 95th/5th percentiles — are taken as given attributes
of the frame; the flags and score are derived exactly as in the source. -/
def assessFrameQuality (brightness sharpness contrast noise_level p95 p5 : ℚ) :
    FrameQuality :=
  let is_blurred := decide (sharpness < 100)
  let is_overexposed := decide (brightness > 200 ∨ p95 > 250)
  let is_underexposed := decide (brightness < 50 ∨ p5 < 20)
  { brightness, sharpness, contrast, noise_level,
    is_blurred, is_overexposed, is_underexposed,
    quality_score := calculateQualityScore brightness sharpness contrast noise_level
      is_blurred is_overexposed is_underexposed }

/-! ### `camera_manager.py` — frames, metrics, capture -/

/-- A pixel array, abstracted to its dimensions (`numpy` shape). -/
structure Frame where
  height : Nat
  width : Nat
  channels : Nat
deriving DecidableEq

/-- A frame as read from hardware: pixel data plus the luma statistics
`_assess_frame_quality` derives from it. -/
structure RawFrame where
  frame : Frame
  brightness : ℚ
  sharpness : ℚ
  contrast : ℚ
  noise_level : ℚ
  p95 : ℚ
  p5 : ℚ
deriving DecidableEq

/-- Quality assessment of a raw frame. -/
def assessRaw (fr : RawFrame) : FrameQuality :=
  assessFrameQuality fr.brightness fr.sharpness fr.contrast fr.noise_level fr.p95 fr.p5

/-- Models a `collections.deque` append with capacity `cap`: add on the right, evicting from
the left whatever exceeds the capacity. -/
def dequeAppend (cap : Nat) (buf : List α) (x : α) : List α :=
  let b := buf ++ [x]
  if b.length ≤ cap then b else b.drop (b.length - cap)

/-- The `CameraConfig` dataclass (camera_manager.py lines 16–32). -/
structure CameraConfig where
  resolution : Nat × Nat := (1920, 1080)
  fps : Nat := 30
  exposure : Option ℤ := none
  gain : Option ℚ := none
  white_balance : Option ℤ := none
  focus : Option ℤ := none
  brightness : Option ℤ := none
  contrast : Option ℤ := none
  saturation : Option ℤ := none
  buffer_size : Nat := 5
  warmup_frames : Nat := 30
  timeout : Nat := 5
  retry_attempts : Nat := 3
  retry_delay : ℚ := 2
deriving DecidableEq

/-- The state of `CameraMetrics` (camera_manager.py lines 48–70); `quality_scores` is a
`deque(maxlen=100)`. -/
structure CameraMetricsState where
  total_frames : Nat := 0
  failed_frames : Nat := 0
  avg_capture_time : ℚ := 0
  last_capture_time : ℚ := 0
  quality_scores : List ℚ := []
  connection_failures : Nat := 0
deriving DecidableEq

/-- Embedding of `CameraMetrics.record_capture` (camera_manager.py lines 61–70). -/
def recordCapture (m : CameraMetricsState) (success : Bool) (capture_time : ℚ)
    (quality_score : ℚ) : CameraMetricsState :=
  let m := { m with total_frames := m.total_frames + 1 }
  if success then
    { m with last_capture_time := capture_time,
             avg_capture_time := m.avg_capture_time * (9/10) + capture_time * (1/10),
             quality_scores := dequeAppend 100 m.quality_scores quality_score }
  else
    { m with failed_frames := m.failed_frames + 1 }

/-- The state of one `Camera` object relevant to capture: its id, the
`is_initialized` flag, whether `self.capture` holds a handle, its metrics and
last-frame cache. -/
structure CameraState where
  camera_id : Nat
  is_initialized : Bool
  has_capture : Bool
  metrics : CameraMetricsState
  last_frame : Option Frame
  last_quality : Option FrameQuality
deriving DecidableEq

/-- Embedding of `Camera.capture_frame` (camera_manager.py lines 201–242).  `readResult`
is the outcome of `self.capture.read()` (`none` for a failed read) and
`elapsed` the measured capture time.  Returns the `(frame, quality)` pair (or
`none`) together with the updated camera state. -/
def cameraCaptureFrame (cam : CameraState) (validate_quality : Bool)
    (min_quality_score : ℚ) (readResult : Option RawFrame) (elapsed : ℚ) :
    Option (Frame × FrameQuality) × CameraState :=
  if cam.is_initialized = false ∨ cam.has_capture = false then (none, cam)
  else
    match readResult with
    | none => (none, { cam with metrics := recordCapture cam.metrics false 0 0 })
    | some fr =>
        -- cv2.cvtColor(frame, COLOR_BGR2RGB) permutes channels, keeping shape
        let quality := assessRaw fr
        let m := recordCapture cam.metrics true elapsed quality.quality_score
        if validate_quality = true ∧ quality.quality_score < min_quality_score then
          (none, { cam with metrics := m })
        else
          (some (fr.frame, quality),
           { cam with metrics := m,
                      last_frame := some fr.frame,
                      last_quality := some quality })

/-- The ring buffer after `_continuous_capture_loop`
(camera_manager.py lines 343–354) has appended the given successful captures,
in order, to an initially empty `deque(maxlen = cap)`. -/
def continuousBuffer (cap : Nat) (captures : List α) : List α :=
  captures.foldl (fun b e => dequeAppend cap b e) []

/-- An entry of the continuous-capture ring buffer:
`(frame, quality, time.time())`. -/
abbrev BufferEntry := Frame × FrameQuality × ℚ

/-! ### `camera_manager.py` — `CameraManager` -/

/-- One value of the `CameraManager.cameras` dictionary: a real `Camera`
object or the `"SIMULATOR"` sentinel string. -/
inductive CameraEntry where
  | simulator
  | cam (c : CameraState)
deriving DecidableEq

/-- The `CameraManager` state: the id→entry registry (as an association list) and
the construction-time cloud-environment flag. -/
structure ManagerState where
  cameras : List (Nat × CameraEntry)
  is_cloud_environment : Bool
deriving DecidableEq

/-- Dictionary lookup `self.cameras[camera_id]` / `camera_id in self.cameras`. -/
def regLookup (l : List (Nat × CameraEntry)) (k : Nat) : Option CameraEntry :=
  (l.find? (fun p => p.1 == k)).map (fun p => p.2)

/-- Dictionary deletion `del self.cameras[camera_id]`. -/
def regErase (l : List (Nat × CameraEntry)) (k : Nat) : List (Nat × CameraEntry) :=
  l.filter (fun p => p.1 != k)

/-- Dictionary insertion `self.cameras[camera_id] = v`. -/
def regInsert (l : List (Nat × CameraEntry)) (k : Nat) (v : CameraEntry) :
    List (Nat × CameraEntry) :=
  regErase l k ++ [(k, v)]

/-- A freshly and successfully initialized `Camera(cid, str(cid), config)`:
`initialize()` has set `is_initialized` and `is_active` and left the metrics
untouched. -/
def initializedCamera (cid : Nat) : CameraState :=
  { camera_id := cid, is_initialized := true, has_capture := true,
    metrics := {}, last_frame := none, last_quality := none }

/-- Embedding of `CameraManager.add_camera` (camera_manager.py lines 398–426) with the
default config.  `initOk cid` abstracts whether
`Camera(cid, str(cid), config).initialize()` succeeds against the hardware
environment. -/
def addCamera (initOk : Nat → Bool) (m : ManagerState) (cid : Nat) :
    Bool × ManagerState :=
  let m1 := { m with cameras := regErase m.cameras cid }
  if m.is_cloud_environment then
    (true, { m1 with cameras := regInsert m1.cameras cid .simulator })
  else if initOk cid then
    (true, { m1 with cameras := regInsert m1.cameras cid (.cam (initializedCamera cid)) })
  else
    (false, m1)

/-- Embedding of `CameraManager._generate_simulator_frame` (camera_manager.py lines
470–504): a 480×640×3 canvas with a gradient, text overlays showing the
camera id and wall-clock time, and a scan line at row `int(now*50) % 480` —
all of which mutate pixel contents only — paired with a fixed
`FrameQuality`. -/
def generateSimulatorFrame (camera_id : Nat) (now : ℚ) : Frame × FrameQuality :=
  let _overlays := (camera_id, now)
  (⟨480, 640, 3⟩,
   ⟨128, 150, 50, 2, false, false, false, 85⟩)

/-- Embedding of `CameraManager.capture_frame` (camera_manager.py lines 447–468).
`readResult`/`elapsed` feed a delegated `Camera.capture_frame`; `now` is the
wall clock used by the simulator frame. -/
def managerCaptureFrame (initOk : Nat → Bool) (m : ManagerState) (cid : Nat)
    (validate_quality : Bool) (min_quality_score : ℚ)
    (readResult : Option RawFrame) (elapsed now : ℚ) :
    Option (Frame × FrameQuality) × ManagerState :=
  if m.is_cloud_environment then
    (some (generateSimulatorFrame cid now), m)
  else
    -- auto-discovery: only the requested id is attempted
    let m1 := if regLookup m.cameras cid = none then (addCamera initOk m cid).2 else m
    match regLookup m1.cameras cid with
    | some (.cam c) =>
        let rc := cameraCaptureFrame c validate_quality min_quality_score readResult elapsed
        (rc.1, { m1 with cameras := regInsert m1.cameras cid (.cam rc.2) })
    | some .simulator => (none, m1)
    | none => (none, m1)

/-- Embedding of `CameraManager.get_frame` (camera_manager.py lines 506–539), with JPEG
encoding abstracted to the encoded frame's pixel source (the encoder
preserves which frame is sent).  In the real-camera branch only id `0` is
ever auto-initialized, and only when it is the id requested. -/
def managerGetFrame (initOk : Nat → Bool) (m : ManagerState) (cid : Nat)
    (readResult : Option RawFrame) (elapsed now : ℚ) :
    Option Frame × ManagerState :=
  if m.is_cloud_environment then
    let m1 := if regLookup m.cameras cid = none
              then { m with cameras := regInsert m.cameras cid .simulator } else m
    (some (generateSimulatorFrame cid now).1, m1)
  else
    let m1 := if regLookup m.cameras cid = none then
                (if cid = 0 then (addCamera initOk m 0).2 else m)
              else m
    match regLookup m1.cameras cid with
    | some (.cam c) =>
        let rc := cameraCaptureFrame c false 50 readResult elapsed
        let m2 := { m1 with cameras := regInsert m1.cameras cid (.cam rc.2) }
        match rc.1 with
        | some fq => (some fq.1, m2)
        | none => (none, m2)
    | some .simulator => (none, m1)
    | none => (none, m1)

/-- Modelled from the spec (claim C6, for comparison with the code): the
auto-discovery order the spec asserts — the requested id first, then ids
`0..4` in ascending order, adopting the first id whose initialization
succeeds. -/
def specAutoDiscovery (initOk : Nat → Bool) (cid : Nat) : Option Nat :=
  (cid :: [0, 1, 2, 3, 4]).find? initOk

/-! ### Lemmas about the stable descending sort -/

lemma mem_insertDescBy (key : α → ℚ) (x a : α) (l : List α) :
    a ∈ insertDescBy key x l ↔ a = x ∨ a ∈ l := by
  induction l with
  | nil => simp [insertDescBy]
  | cons y ys ih =>
      simp only [insertDescBy]
      split
      · simp
      · simp only [List.mem_cons, ih]
        tauto

lemma sortDescBy_head_max (key : α → ℚ) (l : List α) (hne : l ≠ []) :
    ∃ t ts, sortDescBy key l = t :: ts ∧ t ∈ l ∧ ∀ a ∈ l, key a ≤ key t := by
  induction l with
  | nil => exact absurd rfl hne
  | cons x xs ih =>
      cases xs with
      | nil => exact ⟨x, [], rfl, by simp, by simp⟩
      | cons y ys =>
          obtain ⟨t, ts, hsort, htm, hmax⟩ := ih (by simp)
          have hx : sortDescBy key (x :: y :: ys) = insertDescBy key x (t :: ts) := by
            rw [sortDescBy, hsort]
          rw [insertDescBy] at hx
          split at hx
          case isTrue hle =>
            exact ⟨x, t :: ts, hx, by simp, by
              intro a ha
              rcases List.mem_cons.mp ha with rfl | ha2
              · exact le_refl _
              · exact le_trans (hmax a ha2) hle⟩
          case isFalse hlt =>
            exact ⟨t, insertDescBy key x ts, hx, List.mem_cons_of_mem x htm, by
              intro a ha
              rcases List.mem_cons.mp ha with rfl | ha2
              · exact le_of_not_le hlt
              · exact hmax a ha2⟩

lemma parseLabelData_confs_top (cs : List ConfEntry) (hne : cs ≠ []) :
    ∃ e ∈ cs, (parseLabelData (.confs cs)).2.1 = entryConf e ∧
              (parseLabelData (.confs cs)).1 = entryLab e ∧
              ∀ f ∈ cs, entryConf f ≤ entryConf e := by
  obtain ⟨e, ts, hs, hm, hmax⟩ := sortDescBy_head_max entryConf cs hne
  exact ⟨e, hm, by simp [parseLabelData, hs, entryConf],
         by simp [parseLabelData, hs, entryLab], hmax⟩

/-! ### Inversion of the `detect_part` decision -/

lemma detectProcess_ok_inv (t : ℚ) (s : String) (ld : LabelData) (r : DetectOk)
    (h : detectProcess t s ld = .ok r) :
    (r.matched = true →
       failureMarkers.any (fun f => strContains (pyLower s) f) = false ∧
       CONFIDENCE_THRESHOLD ≤ r.confidence ∧
       r.best_match = (parseLabelData ld).1) ∧
    (r.matched = false → r.best_match = "UNKNOWN") ∧
    ((parseLabelData ld).2.1 ≠ 0 → r.confidence = (parseLabelData ld).2.1) ∧
    (failureMarkers.any (fun f => strContains (pyLower s) f) = false →
       CONFIDENCE_THRESHOLD ≤ r.confidence → r.matched = true) := by
  simp only [detectProcess] at h
  split at h
  case h_1 => exact Except.noConfusion h
  case h_2 fb heq =>
    have hfb : (parseLabelData ld).2.1 ≠ 0 → fb = none := by
      intro hp
      rw [if_neg hp] at heq
      exact (Except.ok.inj heq).symm
    split at h
    case isTrue hc =>
      obtain rfl : r = ⟨false, _, "UNKNOWN", _⟩ := (Except.ok.inj h).symm
      refine ⟨fun hm => by simp at hm, fun _ => rfl, fun hp => ?_, fun hmk hge => ?_⟩
      · simp [hfb hp]
      · rcases hc with hc | hc
        · rw [Bool.not_eq_false', hmk] at hc
          exact absurd hc (by simp)
        · exact absurd hge (not_le.mpr hc)
    case isFalse hc =>
      obtain rfl : r = ⟨true, _, _, _⟩ := (Except.ok.inj h).symm
      push_neg at hc
      obtain ⟨hv, hge⟩ := hc
      refine ⟨fun _ => ⟨?_, hge, rfl⟩, fun hm => by simp at hm, fun hp => ?_, fun _ _ => rfl⟩
      · simpa using hv
      · simp [hfb hp]

/-! ### Claims C1–C3 -/

/-- Claim C1 — counterexample: with a status text containing `"unconfigured"`
(and none of the code's three markers) and a parsed confidence of 0.9,
`detect_part` reports `matched = true`, so `"unconfigured"` is not one of the
failure markers the code checks. -/
theorem detect_part_unconfigured_not_a_marker :
    detectProcess (70/100) "unconfigured" (.confs [⟨some "A", some (9/10)⟩])
      = .ok ⟨true, 9/10, "A", [("A", 9/10)]⟩ ∧
    strContains (pyLower "unconfigured") "unconfigured" = true :=
  ⟨by rfl, by decide⟩

/-- Claim C1 (amended: the fixed failure markers are exactly
`"no bolt holes"`, `"localization failed"` and `"insufficient hole"` —
`"unconfigured"` is not among them): whenever `detect_part` obtains a result
array and returns its success dictionary, `matched` is true only if the
lowered status text contains none of the three markers and the parsed
confidence is at least the local gate; whenever `matched` is false the
returned `best_match` is the sentinel `"UNKNOWN"`. -/
theorem detect_part_matched_requires_gate (t : ℚ) (s : String) (ld : LabelData)
    (r : DetectOk) (h : detectProcess t s ld = .ok r) :
    (r.matched = true →
       failureMarkers.any (fun f => strContains (pyLower s) f) = false ∧
       CONFIDENCE_THRESHOLD ≤ r.confidence) ∧
    (r.matched = false → r.best_match = "UNKNOWN") :=
  ⟨fun hm => ⟨((detectProcess_ok_inv t s ld r h).1 hm).1,
              ((detectProcess_ok_inv t s ld r h).1 hm).2.1⟩,
   (detectProcess_ok_inv t s ld r h).2.1⟩

/-- Witness for `detect_part_matched_requires_gate` at a concrete matched
detection. -/
theorem detect_part_matched_requires_gate_witness :
    failureMarkers.any (fun f => strContains (pyLower "ok: PASS") f) = false ∧
    CONFIDENCE_THRESHOLD ≤ (81/100 : ℚ) :=
  (detect_part_matched_requires_gate (70/100) "ok: PASS"
      (.confs [⟨some "B", some (81/100)⟩]) ⟨true, 81/100, "B", [("B", 81/100)]⟩
      (by rfl)).1 rfl

/-- Claim C2 — counterexample: a result parsing to confidence 0.65 with no
failure markers yields `matched = true` and the remote label (the local gate
is 0.60, not 0.70), contradicting the claimed `matched = false`,
`best_match = "UNKNOWN"`. -/
theorem detect_part_confidence_065_matches :
    detectProcess (70/100) "" (.confs [⟨some "A", some (65/100)⟩])
      = .ok ⟨true, 65/100, "A", [("A", 65/100)]⟩ := by
  rfl

/-- Claim C2 (amended: the local gate `CONFIDENCE_THRESHOLD` is the fixed
value 0.60, so a parsed confidence of 0.65 with no failure markers yields
`matched = true`; the caller-supplied `threshold` is only forwarded to the
remote service in the job payload and never overrides the local gate). -/
theorem detect_part_local_gate_is_060 :
    (∀ (t t' : ℚ) (s : String) (ld : LabelData),
       detectProcess t s ld = detectProcess t' s ld) ∧
    CONFIDENCE_THRESHOLD = 60/100 ∧
    (∀ (t : ℚ) (s : String) (ld : LabelData) (r : DetectOk),
       detectProcess t s ld = .ok r →
       failureMarkers.any (fun f => strContains (pyLower s) f) = false →
       r.confidence = 65/100 → r.matched = true) :=
  ⟨fun _ _ _ _ => rfl, rfl,
   fun t s ld r h hmk hc =>
     (detectProcess_ok_inv t s ld r h).2.2.2 hmk (by rw [hc]; norm_num [CONFIDENCE_THRESHOLD])⟩

/-- Witness for `detect_part_local_gate_is_060` at a concrete detection with
parsed confidence 0.65. -/
theorem detect_part_local_gate_is_060_witness :
    (⟨true, 65/100, "A", [("A", 65/100)]⟩ : DetectOk).matched = true :=
  detect_part_local_gate_is_060.2.2 (70/100) "" (.confs [⟨some "A", some (65/100)⟩])
    ⟨true, 65/100, "A", [("A", 65/100)]⟩ (by rfl) (by decide) rfl

/-- Claim C3 — counterexample: with a confidences list whose maximum entry is
`("A", 0)` and a status text carrying `**Confidence**: 55%`, the returned
dictionary has `confidence = 0.55 ≠ 0` (the fallback replaced the zero
maximum) and `best_match = "UNKNOWN" ≠ "A"` (forced on non-match), so neither
returned field equals the maximum entry's data. -/
theorem detect_part_below_gate_masks_top_label :
    detectProcess (70/100) "**Confidence**: 55%" (.confs [⟨some "A", some 0⟩])
      = .ok ⟨false, 55/100, "UNKNOWN", [("A", 0)]⟩ ∧
    entryConf ⟨some "A", some 0⟩ = 0 ∧
    entryLab ⟨some "A", some 0⟩ = "A" ∧
    (55/100 : ℚ) ≠ 0 ∧ "UNKNOWN" ≠ "A" :=
  ⟨by rfl, rfl, rfl, by norm_num, by decide⟩

/-- Claim C3 (amended: for a confidences-list label structure,
`_parse_label_data` extracts the maximum entry's confidence and that entry's
label; the extracted confidence is the returned confidence whenever it is
nonzero (a zero maximum may be replaced by the status-text fallback), and the
extracted label is the returned `best_match` exactly on a matched result; in
particular entries `{A: 0.55, B: 0.81}` with no failure markers give
`matched = true`, `best_match = "B"`, `confidence = 0.81`). -/
theorem detect_part_label_list_takes_max (t : ℚ) (s : String)
    (cs : List ConfEntry) (r : DetectOk) (hne : cs ≠ [])
    (h : detectProcess t s (.confs cs) = .ok r) :
    (∃ e ∈ cs, (parseLabelData (.confs cs)).2.1 = entryConf e ∧
               (parseLabelData (.confs cs)).1 = entryLab e ∧
               ∀ f ∈ cs, entryConf f ≤ entryConf e) ∧
    ((parseLabelData (.confs cs)).2.1 ≠ 0 →
       r.confidence = (parseLabelData (.confs cs)).2.1) ∧
    (r.matched = true → r.best_match = (parseLabelData (.confs cs)).1) :=
  ⟨parseLabelData_confs_top cs hne,
   (detectProcess_ok_inv t s (.confs cs) r h).2.2.1,
   fun hm => ((detectProcess_ok_inv t s (.confs cs) r h).1 hm).2.2⟩

/-- Witness for `detect_part_label_list_takes_max` at the concrete entries
`{A: 0.55, B: 0.81}`, where `detect_part` returns `matched = true`,
`best_match = "B"`, `confidence = 0.81`. -/
theorem detect_part_label_list_takes_max_witness :
    (∃ e ∈ ([⟨some "A", some (55/100)⟩, ⟨some "B", some (81/100)⟩] : List ConfEntry),
       (parseLabelData (.confs [⟨some "A", some (55/100)⟩, ⟨some "B", some (81/100)⟩])).2.1
         = entryConf e ∧
       (parseLabelData (.confs [⟨some "A", some (55/100)⟩, ⟨some "B", some (81/100)⟩])).1
         = entryLab e ∧
       ∀ f ∈ ([⟨some "A", some (55/100)⟩, ⟨some "B", some (81/100)⟩] : List ConfEntry),
         entryConf f ≤ entryConf e) ∧
    ((parseLabelData (.confs [⟨some "A", some (55/100)⟩, ⟨some "B", some (81/100)⟩])).2.1 ≠ 0 →
       (⟨true, 81/100, "B", [("B", 81/100), ("A", 55/100)]⟩ : DetectOk).confidence
         = (parseLabelData (.confs [⟨some "A", some (55/100)⟩, ⟨some "B", some (81/100)⟩])).2.1) ∧
    ((⟨true, 81/100, "B", [("B", 81/100), ("A", 55/100)]⟩ : DetectOk).matched = true →
       (⟨true, 81/100, "B", [("B", 81/100), ("A", 55/100)]⟩ : DetectOk).best_match
         = (parseLabelData (.confs [⟨some "A", some (55/100)⟩, ⟨some "B", some (81/100)⟩])).1) :=
  detect_part_label_list_takes_max (70/100) ""
    [⟨some "A", some (55/100)⟩, ⟨some "B", some (81/100)⟩]
    ⟨true, 81/100, "B", [("B", 81/100), ("A", 55/100)]⟩ (by simp) (by rfl)

/-! ### Claims C4 and C9 — `detect_part` error handling and file lifecycle -/

/-- Claim C4 (code bug): when `image.save` raises inside the `with` block,
`temp_path` has not yet been assigned (`temp_path = tmp.name` runs only after
the save succeeds), so the `finally` block removes nothing and the input temp
file created by `NamedTemporaryFile(delete=False)` still exists after
`detect_part` returns — contradicting the spec and the code's own
`Always clean up the input temp file` comment. -/
theorem detect_part_input_file_leak_on_save_error :
    (detectPart (70/100) ⟨.atSave, "", .notDict, .noPath, .noPath⟩).files = [tmpInputFile] ∧
    (detectPart (70/100) ⟨.atSave, "", .notDict, .noPath, .noPath⟩).outcome = .failure false 0 :=
  ⟨rfl, rfl⟩

/-- Claim C9 — counterexample: a download error does not produce the failure
dictionary.  With a valid result (confidence 0.9, no markers) and a
visualization download that fails after `mkstemp` created its file,
`detect_part` still returns the success dictionary (`success = True`,
`matched = True`) with the asset path `None`, and the partially-downloaded
`hf_result_*` file still exists after the call — it was neither returned to
the caller nor deleted. -/
theorem detect_part_download_error_returns_success :
    (detectPart (70/100)
        ⟨.ok, "", .confs [⟨some "A", some (9/10)⟩], .writeError, .noPath⟩).outcome
      = .success ⟨true, 9/10, "A", [("A", 9/10)]⟩ none none ∧
    (detectPart (70/100)
        ⟨.ok, "", .confs [⟨some "A", some (9/10)⟩], .writeError, .noPath⟩).files
      = [visFile] :=
  ⟨by rfl, by rfl⟩

/-- Claim C9 (amended: `detect_part` never propagates an exception; failures
at save, upload, job submission, the short-result check, or a `float()` error
during result parsing are caught and turned into the dictionary
`success = False`, `matched = False`, `confidence = 0.0`, with no
visualization-asset temp file existing after such a return.  A download
error, however, is swallowed inside `_download_asset`: the call still returns
the success dictionary with the affected asset path `None`, and when the
failure occurred after the asset's temporary file was created, that
partially-downloaded file is left on disk rather than deleted). -/
theorem detect_part_error_handling :
    (∀ (t : ℚ) (inp : DetectInput) (m : Bool) (c : ℚ),
       (detectPart t inp).outcome = .failure m c →
       m = false ∧ c = 0 ∧
       visFile ∉ (detectPart t inp).files ∧
       attnFile ∉ (detectPart t inp).files) ∧
    (∀ (t : ℚ) (inp : DetectInput) (r : DetectOk),
       inp.fail = .ok →
       detectProcess t inp.status_text inp.label_data = .ok r →
       (detectPart t inp).outcome
         = .success r (downloadAsset inp.visDl visFile).1
             (downloadAsset inp.attnDl attnFile).1) ∧
    (∀ (t : ℚ) (inp : DetectInput) (r : DetectOk) (vis attn : Option String),
       inp.visDl = .writeError →
       (detectPart t inp).outcome = .success r vis attn →
       vis = none ∧ visFile ∈ (detectPart t inp).files) := by
  refine ⟨fun t inp m c h => ?_, fun t inp r hf hd => ?_, fun t inp r vis attn hw h => ?_⟩
  · obtain ⟨fail, s, ld, vd, ad⟩ := inp
    cases fail with
    | atSave =>
        simp only [detectPart, cleanupTemp] at h ⊢
        injection h with h1 h2
        exact ⟨h1.symm, h2.symm, by decide, by decide⟩
    | atUpload =>
        simp only [detectPart, cleanupTemp] at h ⊢
        injection h with h1 h2
        exact ⟨h1.symm, h2.symm, by decide, by decide⟩
    | atCallApi =>
        simp only [detectPart, cleanupTemp] at h ⊢
        injection h with h1 h2
        exact ⟨h1.symm, h2.symm, by decide, by decide⟩
    | atShortResult =>
        simp only [detectPart, cleanupTemp] at h ⊢
        injection h with h1 h2
        exact ⟨h1.symm, h2.symm, by decide, by decide⟩
    | ok =>
        rcases hd : detectProcess t s ld with e | r <;>
          simp only [detectPart, hd, cleanupTemp] at h ⊢
        · injection h with h1 h2
          exact ⟨h1.symm, h2.symm, by decide, by decide⟩
        · exact absurd h (by simp)
  · obtain ⟨fail, s, ld, vd, ad⟩ := inp
    simp only at hf hd
    subst hf
    simp only [detectPart, hd]
  · obtain ⟨fail, s, ld, vd, ad⟩ := inp
    simp only at hw
    subst hw
    cases fail with
    | atSave => exact absurd h (by simp [detectPart])
    | atUpload => exact absurd h (by simp [detectPart])
    | atCallApi => exact absurd h (by simp [detectPart])
    | atShortResult => exact absurd h (by simp [detectPart])
    | ok =>
        rcases hd : detectProcess t s ld with e | r0 <;>
          simp only [detectPart, hd, downloadAsset, cleanupTemp] at h ⊢
        · exact absurd h (by simp)
        · injection h with h1 h2 h3
          refine ⟨h2.symm, ?_⟩
          cases ad <;> simp [downloadAsset, tmpInputFile, visFile, attnFile]

/-- Witness for `detect_part_error_handling`: an upload failure yields the
error dictionary with no asset files, and a write-failed visualization
download yields a success return with the asset `None` but its temp file
still present. -/
theorem detect_part_error_handling_witness :
    (false = false ∧ (0 : ℚ) = 0 ∧
     visFile ∉ (detectPart (70/100) ⟨.atUpload, "", .notDict, .noPath, .noPath⟩).files ∧
     attnFile ∉ (detectPart (70/100) ⟨.atUpload, "", .notDict, .noPath, .noPath⟩).files) ∧
    ((none : Option String) = none ∧
     visFile ∈ (detectPart (70/100)
         ⟨.ok, "", .confs [⟨some "B", some (81/100)⟩], .writeError, .ok⟩).files) :=
  ⟨detect_part_error_handling.1 (70/100) ⟨.atUpload, "", .notDict, .noPath, .noPath⟩
      false 0 rfl,
   detect_part_error_handling.2.2 (70/100)
      ⟨.ok, "", .confs [⟨some "B", some (81/100)⟩], .writeError, .ok⟩
      ⟨true, 81/100, "B", [("B", 81/100)]⟩ none (some attnFile) rfl (by rfl)⟩

/-! ### Claim C5 — frame quality score -/

lemma calculateQualityScore_bounds (b sh c n : ℚ) (bl ov un : Bool) :
    0 ≤ calculateQualityScore b sh c n bl ov un ∧
    calculateQualityScore b sh c n bl ov un ≤ 100 := by
  unfold calculateQualityScore
  exact ⟨le_max_left _ _, max_le (by norm_num) (min_le_left _ _)⟩

/-- The accumulated penalties never exceed 100, so the final clamp of
`_calculate_quality_score` is the identity. -/
lemma calculateQualityScore_unclamped (b sh c n : ℚ) (bl ov un : Bool) :
    calculateQualityScore b sh c n bl ov un =
      (100 - (if bl then 30 else if sh < 200 then 15 else 0))
      - (if ov || un then 25 else if b < 80 ∨ b > 180 then 10 else 0)
      - (if c < 30 then 20 else if c < 50 then 10 else 0)
      - (if n > 10 then 20 else if n > 5 then 10 else 0) := by
  unfold calculateQualityScore
  have h1 : (0:ℚ) ≤ (if bl then (30:ℚ) else if sh < 200 then 15 else 0) ∧
      (if bl then (30:ℚ) else if sh < 200 then 15 else 0) ≤ 30 := by
    split_ifs <;> norm_num
  have h2 : (0:ℚ) ≤ (if ov || un then (25:ℚ) else if b < 80 ∨ b > 180 then 10 else 0) ∧
      (if ov || un then (25:ℚ) else if b < 80 ∨ b > 180 then 10 else 0) ≤ 25 := by
    split_ifs <;> norm_num
  have h3 : (0:ℚ) ≤ (if c < 30 then (20:ℚ) else if c < 50 then 10 else 0) ∧
      (if c < 30 then (20:ℚ) else if c < 50 then 10 else 0) ≤ 20 := by
    split_ifs <;> norm_num
  have h4 : (0:ℚ) ≤ (if n > 10 then (20:ℚ) else if n > 5 then 10 else 0) ∧
      (if n > 10 then (20:ℚ) else if n > 5 then 10 else 0) ≤ 20 := by
    split_ifs <;> norm_num
  rw [min_eq_right (by linarith [h1.1, h2.1, h3.1, h4.1]),
      max_eq_right (by linarith [h1.2, h2.2, h3.2, h4.2])]

lemma assessFrameQuality_score (b sh c n p95 p5 : ℚ) :
    (assessFrameQuality b sh c n p95 p5).quality_score =
      calculateQualityScore b sh c n (decide (sh < 100))
        (decide (b > 200 ∨ p95 > 250)) (decide (b < 50 ∨ p5 < 20)) := rfl

lemma assessFrameQuality_is_blurred (b sh c n p95 p5 : ℚ) :
    (assessFrameQuality b sh c n p95 p5).is_blurred = decide (sh < 100) := rfl

lemma calculateQualityScore_blur_diff (b sh sh2 c n : ℚ) (ov un : Bool)
    (hsh : sh < 100) (hsh2 : 200 ≤ sh2) :
    calculateQualityScore b sh2 c n (decide (sh2 < 100)) ov un
      = calculateQualityScore b sh c n (decide (sh < 100)) ov un + 30 := by
  rw [calculateQualityScore_unclamped, calculateQualityScore_unclamped]
  have e1 : decide (sh < 100) = true := by simpa using hsh
  have e2 : decide (sh2 < 100) = false := by simp; linarith
  rw [e1, e2]
  have e3 : ¬ sh2 < 200 := by linarith
  rw [if_neg (show ¬ (false = true) by simp), if_neg e3, if_pos rfl]
  ring

/-- Claim C5: for every frame, `quality_score` lies in `[0, 100]`; a frame
with sharpness below 100 has `is_blurred = true` and its score is exactly 30
lower than an otherwise-identical frame (same brightness, contrast, noise and
exposure statistics) whose sharpness is at least 200. -/
theorem frame_quality_score_range_and_blur_penalty (b sh c n p95 p5 : ℚ) :
    (0 ≤ (assessFrameQuality b sh c n p95 p5).quality_score ∧
     (assessFrameQuality b sh c n p95 p5).quality_score ≤ 100) ∧
    (sh < 100 →
      (assessFrameQuality b sh c n p95 p5).is_blurred = true ∧
      ∀ sh2 : ℚ, 200 ≤ sh2 →
        (assessFrameQuality b sh2 c n p95 p5).quality_score
          = (assessFrameQuality b sh c n p95 p5).quality_score + 30) := by
  refine ⟨?_, fun hsh => ⟨?_, fun sh2 hsh2 => ?_⟩⟩
  · rw [assessFrameQuality_score]
    exact calculateQualityScore_bounds _ _ _ _ _ _ _
  · rw [assessFrameQuality_is_blurred]
    simpa using hsh
  · rw [assessFrameQuality_score, assessFrameQuality_score]
    exact calculateQualityScore_blur_diff b sh sh2 c n _ _ hsh hsh2

/-- Witness for `frame_quality_score_range_and_blur_penalty` at a concrete
blurred frame (sharpness 50) and its sharp counterpart (sharpness 250). -/
theorem frame_quality_score_range_and_blur_penalty_witness :
    (assessFrameQuality 128 50 60 2 200 100).is_blurred = true ∧
    (assessFrameQuality 128 250 60 2 200 100).quality_score
      = (assessFrameQuality 128 50 60 2 200 100).quality_score + 30 :=
  ⟨((frame_quality_score_range_and_blur_penalty 128 50 60 2 200 100).2
      (by decide)).1,
   ((frame_quality_score_range_and_blur_penalty 128 50 60 2 200 100).2
      (by decide)).2 250 (by decide)⟩

/-! ### Claim C7 — the continuous-capture ring buffer -/

lemma dequeAppend_eq_drop (cap : Nat) (b : List α) (x : α) :
    dequeAppend cap b x = (b ++ [x]).drop ((b ++ [x]).length - cap) := by
  show (if (b ++ [x]).length ≤ cap then b ++ [x]
        else (b ++ [x]).drop ((b ++ [x]).length - cap))
      = (b ++ [x]).drop ((b ++ [x]).length - cap)
  by_cases h : (b ++ [x]).length ≤ cap
  · rw [if_pos h, Nat.sub_eq_zero_of_le h, List.drop_zero]
  · rw [if_neg h]

lemma dequeAppend_lastN (cap : Nat) (ys : List α) (x : α) :
    dequeAppend cap (ys.drop (ys.length - cap)) x
      = (ys ++ [x]).drop ((ys ++ [x]).length - cap) := by
  rw [dequeAppend_eq_drop]
  have hA : (ys.drop (ys.length - cap)).length = ys.length - (ys.length - cap) :=
    List.length_drop _ _
  rcases le_or_lt cap ys.length with hc | hc
  · rcases Nat.eq_zero_or_pos cap with rfl | hpos
    · have hd : ys.drop (ys.length - 0) = [] := by
        rw [Nat.sub_zero]; exact List.drop_length ys
      rw [hd]
      simp
    · have hAl : (ys.drop (ys.length - cap)).length = cap := by omega
      have h1 : ((ys.drop (ys.length - cap)) ++ [x]).length - cap = 1 := by
        simp only [List.length_append, List.length_cons, List.length_nil, hAl]
        omega
      have h2 : (ys ++ [x]).length - cap = ys.length - cap + 1 := by
        simp only [List.length_append, List.length_cons, List.length_nil]
        omega
      rw [h1, h2,
          List.drop_append_of_le_length (by omega : 1 ≤ (ys.drop (ys.length - cap)).length),
          List.drop_drop,
          List.drop_append_of_le_length (by omega : ys.length - cap + 1 ≤ ys.length)]
  · have h0 : ys.length - cap = 0 := by omega
    rw [h0, List.drop_zero]

lemma continuousBuffer_eq_drop (cap : Nat) (xs : List α) :
    continuousBuffer cap xs = xs.drop (xs.length - cap) := by
  suffices h : ∀ ys : List α,
      xs.foldl (fun b e => dequeAppend cap b e) (ys.drop (ys.length - cap))
        = (ys ++ xs).drop ((ys ++ xs).length - cap) by
    simpa using h []
  induction xs with
  | nil => intro ys; simp
  | cons x xs ih =>
      intro ys
      rw [List.foldl_cons, dequeAppend_lastN, ih (ys ++ [x])]
      simp [List.append_assoc]

/-- Claim C7: the continuous-capture ring buffer never holds more than
`buffer_size` entries, and after `buffer_size + k` successful captures it
holds exactly the most recent `buffer_size` entries — the first `k` (oldest)
captures have been evicted. -/
theorem ring_buffer_bounded_and_recent (cfg : CameraConfig)
    (captures : List BufferEntry) :
    (continuousBuffer cfg.buffer_size captures).length ≤ cfg.buffer_size ∧
    ∀ k, captures.length = cfg.buffer_size + k →
      continuousBuffer cfg.buffer_size captures = captures.drop k := by
  constructor
  · rw [continuousBuffer_eq_drop, List.length_drop]; omega
  · intro k hk
    rw [continuousBuffer_eq_drop]
    congr 1
    omega

/-- A concrete ring-buffer entry used by the capacity witness. -/
def witnessEntry (t : ℚ) : BufferEntry :=
  (⟨480, 640, 3⟩, ⟨128, 150, 50, 2, false, false, false, 85⟩, t)

/-- Witness for `ring_buffer_bounded_and_recent`: capacity 2 and three
captures keep exactly the last two. -/
theorem ring_buffer_bounded_and_recent_witness :
    continuousBuffer ({ buffer_size := 2 } : CameraConfig).buffer_size
        [witnessEntry 1, witnessEntry 2, witnessEntry 3]
      = [witnessEntry 1, witnessEntry 2, witnessEntry 3].drop 1 :=
  (ring_buffer_bounded_and_recent { buffer_size := 2 }
    [witnessEntry 1, witnessEntry 2, witnessEntry 3]).2 1 rfl

/-! ### Claim C8 — quality-rejected frames count as successful captures -/

/-- Claim C8: when `Camera.capture_frame` reads a frame successfully but its
quality score is below `min_quality_score` (with `validate_quality` on), the
call returns none while the metrics record a success: `total_frames` is
incremented, `failed_frames` is unchanged, and the low score is appended to
the quality history. -/
theorem quality_rejected_frame_counts_as_success (cam : CameraState)
    (mqs elapsed : ℚ) (fr : RawFrame)
    (hinit : cam.is_initialized = true) (hcap : cam.has_capture = true)
    (hlow : (assessRaw fr).quality_score < mqs) :
    (cameraCaptureFrame cam true mqs (some fr) elapsed).1 = none ∧
    (cameraCaptureFrame cam true mqs (some fr) elapsed).2.metrics.total_frames
      = cam.metrics.total_frames + 1 ∧
    (cameraCaptureFrame cam true mqs (some fr) elapsed).2.metrics.failed_frames
      = cam.metrics.failed_frames ∧
    (cameraCaptureFrame cam true mqs (some fr) elapsed).2.metrics.quality_scores
      = dequeAppend 100 cam.metrics.quality_scores (assessRaw fr).quality_score := by
  have hcond : ¬ (cam.is_initialized = false ∨ cam.has_capture = false) := by
    simp [hinit, hcap]
  simp only [cameraCaptureFrame, if_neg hcond]
  rw [if_pos ⟨by trivial, hlow⟩]
  simp [recordCapture]

/-- Witness for `quality_rejected_frame_counts_as_success` at a blurred frame
(score 70) against a threshold of 85. -/
theorem quality_rejected_frame_counts_as_success_witness :
    (cameraCaptureFrame ⟨0, true, true, {}, none, none⟩ true 85
        (some ⟨⟨480, 640, 3⟩, 128, 50, 60, 2, 200, 100⟩) 1).1 = none ∧
    (cameraCaptureFrame ⟨0, true, true, {}, none, none⟩ true 85
        (some ⟨⟨480, 640, 3⟩, 128, 50, 60, 2, 200, 100⟩) 1).2.metrics.total_frames
      = ({} : CameraMetricsState).total_frames + 1 ∧
    (cameraCaptureFrame ⟨0, true, true, {}, none, none⟩ true 85
        (some ⟨⟨480, 640, 3⟩, 128, 50, 60, 2, 200, 100⟩) 1).2.metrics.failed_frames
      = ({} : CameraMetricsState).failed_frames ∧
    (cameraCaptureFrame ⟨0, true, true, {}, none, none⟩ true 85
        (some ⟨⟨480, 640, 3⟩, 128, 50, 60, 2, 200, 100⟩) 1).2.metrics.quality_scores
      = dequeAppend 100 ({} : CameraMetricsState).quality_scores
          (assessRaw ⟨⟨480, 640, 3⟩, 128, 50, 60, 2, 200, 100⟩).quality_score :=
  quality_rejected_frame_counts_as_success ⟨0, true, true, {}, none, none⟩ 85 1
    ⟨⟨480, 640, 3⟩, 128, 50, 60, 2, 200, 100⟩ rfl rfl (by decide)

/-! ### Claims C6 and C10 — `CameraManager` auto-discovery and simulator -/

lemma regLookup_eq_none_iff (l : List (Nat × CameraEntry)) (k : Nat) :
    regLookup l k = none ↔ ∀ p ∈ l, p.1 ≠ k := by
  unfold regLookup
  rw [Option.map_eq_none', List.find?_eq_none]
  simp

lemma regErase_eq_of_lookup_none (l : List (Nat × CameraEntry)) (k : Nat)
    (h : regLookup l k = none) : regErase l k = l := by
  unfold regErase
  rw [List.filter_eq_self]
  intro p hp
  simpa using (regLookup_eq_none_iff l k).mp h p hp

lemma regLookup_append_single (l : List (Nat × CameraEntry)) (k : Nat)
    (v : CameraEntry) (h : regLookup l k = none) :
    regLookup (l ++ [(k, v)]) k = some v := by
  unfold regLookup at *
  rw [List.find?_append]
  rw [Option.map_eq_none'] at h
  rw [h]
  simp

lemma regLookup_erase_self (l : List (Nat × CameraEntry)) (k : Nat) :
    regLookup (regErase l k) k = none := by
  rw [regLookup_eq_none_iff]
  intro p hp
  have := List.mem_filter.mp hp
  simpa using this.2

lemma regLookup_insert_self (l : List (Nat × CameraEntry)) (k : Nat) (v : CameraEntry) :
    regLookup (regInsert l k v) k = some v := by
  unfold regInsert
  exact regLookup_append_single _ _ _ (regLookup_erase_self l k)

/-- Claim C6 — counterexample: with hardware where only id 0 initializes, a
`capture_frame` request for unregistered id 3 returns none and adopts nothing,
although the scan the spec describes (requested id, then `0..4`) would adopt
id 0. -/
theorem capture_frame_no_scan_counterexample :
    (managerCaptureFrame (fun n => n == 0) ⟨[], false⟩ 3 true 50
        (some ⟨⟨480, 640, 3⟩, 128, 250, 60, 2, 200, 100⟩) 0 0).1 = none ∧
    (managerCaptureFrame (fun n => n == 0) ⟨[], false⟩ 3 true 50
        (some ⟨⟨480, 640, 3⟩, 128, 250, 60, 2, 200, 100⟩) 0 0).2.cameras = [] ∧
    specAutoDiscovery (fun n => n == 0) 3 = some 0 :=
  ⟨rfl, rfl, rfl⟩

/-- Claim C6 (amended: auto-discovery never scans ids `0..4` —
`capture_frame` tries to initialize only the requested id itself, returning
none and leaving the registry unchanged when that single attempt fails, even
if another id would initialize; `get_frame` auto-initializes only id 0, and
only when id 0 is the id requested). -/
theorem auto_discovery_tries_requested_id_only (initOk : Nat → Bool)
    (m : ManagerState) (cid : Nat) (vq : Bool) (mqs : ℚ) (rd : Option RawFrame)
    (e t : ℚ) (hcloud : m.is_cloud_environment = false)
    (hunreg : regLookup m.cameras cid = none) :
    (initOk cid = false →
       (managerCaptureFrame initOk m cid vq mqs rd e t).1 = none ∧
       (managerCaptureFrame initOk m cid vq mqs rd e t).2.cameras = m.cameras) ∧
    (initOk cid = true →
       regLookup (managerCaptureFrame initOk m cid vq mqs rd e t).2.cameras cid
         = some (.cam (cameraCaptureFrame (initializedCamera cid) vq mqs rd e).2)) ∧
    (cid ≠ 0 →
       (managerGetFrame initOk m cid rd e t).1 = none ∧
       (managerGetFrame initOk m cid rd e t).2.cameras = m.cameras) := by
  have hre : regErase m.cameras cid = m.cameras := regErase_eq_of_lookup_none _ _ hunreg
  refine ⟨fun hno => ?_, fun hyes => ?_, fun h0 => ?_⟩
  · simp [managerCaptureFrame, hcloud, hunreg, addCamera, hno, hre,
      regLookup_erase_self]
  · simp [managerCaptureFrame, hcloud, hunreg, addCamera, hyes,
      regLookup_insert_self]
  · simp [managerGetFrame, hcloud, hunreg, h0]

/-- Witness for `auto_discovery_tries_requested_id_only`: empty registry,
hardware where only id 0 initializes, requested id 3. -/
theorem auto_discovery_tries_requested_id_only_witness :
    ((fun n : Nat => n == 0) 3 = false →
       (managerCaptureFrame (fun n => n == 0) ⟨[], false⟩ 3 false 50 none 0 0).1 = none ∧
       (managerCaptureFrame (fun n => n == 0) ⟨[], false⟩ 3 false 50 none 0 0).2.cameras
         = (⟨[], false⟩ : ManagerState).cameras) ∧
    ((fun n : Nat => n == 0) 3 = true →
       regLookup (managerCaptureFrame (fun n => n == 0) ⟨[], false⟩ 3 false 50
           none 0 0).2.cameras 3
         = some (.cam (cameraCaptureFrame (initializedCamera 3) false 50 none 0).2)) ∧
    ((3 : Nat) ≠ 0 →
       (managerGetFrame (fun n => n == 0) ⟨[], false⟩ 3 none 0 0).1 = none ∧
       (managerGetFrame (fun n => n == 0) ⟨[], false⟩ 3 none 0 0).2.cameras
         = (⟨[], false⟩ : ManagerState).cameras) :=
  auto_discovery_tries_requested_id_only (fun n => n == 0) ⟨[], false⟩ 3 false 50
    none 0 0 rfl rfl

/-- Claim C10: in simulated (cloud) mode `CameraManager.capture_frame`
ignores `validate_quality` and `min_quality_score` entirely: whatever their
values, it returns the 480×640 placeholder frame with the fixed
`FrameQuality` of score 85, touching neither registry nor hardware. -/
theorem simulated_capture_ignores_quality_gate (initOk : Nat → Bool)
    (m : ManagerState) (cid : Nat) (vq : Bool) (mqs : ℚ) (rd : Option RawFrame)
    (e t : ℚ) (hcloud : m.is_cloud_environment = true) :
    managerCaptureFrame initOk m cid vq mqs rd e t
      = (some (generateSimulatorFrame cid t), m) ∧
    (generateSimulatorFrame cid t).1.height = 480 ∧
    (generateSimulatorFrame cid t).1.width = 640 ∧
    (generateSimulatorFrame cid t).2.quality_score = 85 :=
  ⟨by simp only [managerCaptureFrame, hcloud, if_true], rfl, rfl, rfl⟩

/-- Witness for `simulated_capture_ignores_quality_gate` with a quality
threshold of 99, above the simulator's fixed score of 85. -/
theorem simulated_capture_ignores_quality_gate_witness :
    managerCaptureFrame (fun _ => false) ⟨[], true⟩ 1 true 99 none 0 7
      = (some (generateSimulatorFrame 1 7), ⟨[], true⟩) ∧
    (generateSimulatorFrame 1 7).1.height = 480 ∧
    (generateSimulatorFrame 1 7).1.width = 640 ∧
    (generateSimulatorFrame 1 7).2.quality_score = 85 :=
  simulated_capture_ignores_quality_gate (fun _ => false) ⟨[], true⟩ 1 true 99
    none 0 7 rfl

end TMTL
